import Mathlib

/-!
Shallow embedding of the ECCC water-quality validation core
(`src/ml/src/ingest/validate.py` and `src/ml/src/ingest/schema.py`).

Tables (pandas DataFrames) are modelled as a list of column names, a
parallel list of dtype labels, and a list of rows (each a list of cells).
Cells carry nullness explicitly (`Cell.null` stands for NaN/NaT/None).
Machine floats are modelled as rationals; the wall clock read by
`pd.Timestamp.now()` is passed as an explicit parameter.  Message
formatting abstracts Python's numeric format specifiers (`:,`, `:.1f`)
but keeps each message's identifying shape.
-/

namespace WaterIntel

/-- A cell of a table: either null (NaN/NaT/None), a string, a rational
number (modelling a float), or a parsed timestamp with year and a
sub-year ordinal (month/day/time collapsed into one ordinal). -/
inductive Cell where
  | null : Cell
  | str : String → Cell
  | num : ℚ → Cell
  | date : Int → Nat → Cell
deriving DecidableEq, Repr

/-- A timestamp value: year plus a sub-year ordinal, ordered
lexicographically. -/
structure Timestamp where
  year : Int
  sub : Nat
deriving DecidableEq, Repr

/-- Non-strict lexicographic order on timestamps. -/
def tsLE (a b : Timestamp) : Bool :=
  decide (a.year < b.year) || (decide (a.year = b.year) && decide (a.sub ≤ b.sub))

/-- Strict lexicographic order on timestamps. -/
def tsLT (a b : Timestamp) : Bool :=
  decide (a.year < b.year) || (decide (a.year = b.year) && decide (a.sub < b.sub))

/-- Minimum of a nonempty list of timestamps (pandas Series.min). -/
def tsListMin (d : Timestamp) (rest : List Timestamp) : Timestamp :=
  rest.foldl (fun a b => if tsLE a b then a else b) d

/-- Maximum of a nonempty list of timestamps (pandas Series.max). -/
def tsListMax (d : Timestamp) (rest : List Timestamp) : Timestamp :=
  rest.foldl (fun a b => if tsLE a b then b else a) d

/-- Abstract string rendering of a timestamp (for the date_range info). -/
def tsToString (t : Timestamp) : String :=
  toString t.year ++ "-" ++ toString t.sub

/-- Whether a cell is null (pandas isna). -/
def Cell.isNull : Cell → Bool
  | Cell.null => true
  | _ => false

/-- Numeric view of a cell, for the value-range analysis.  The schema
declares the value column float64; non-numeric non-null cells (which
would make the source raise on comparison) carry no numeric value. -/
def Cell.asQ : Cell → Option ℚ
  | Cell.num q => some q
  | _ => none

/-- Length of a string cell (pandas Series.str.len yields null on
non-string entries, which max() then ignores). -/
def Cell.strLen : Cell → Option Nat
  | Cell.str s => some s.length
  | _ => none

/-- Python str() of a cell as used for qualifier / QA-code comparison;
nulls print as nan, matching the float-NaN rendering. -/
def Cell.pyStr : Cell → String
  | Cell.null => "nan"
  | Cell.str s => s
  | Cell.num q => toString q
  | Cell.date y o => tsToString ⟨y, o⟩

/-- pandas to_datetime with errors=coerce on one entry: nulls stay null,
parsed timestamps survive, anything unparseable becomes null (NaT). -/
def coerceDate : Cell → Option Timestamp
  | Cell.date y o => some ⟨y, o⟩
  | _ => none

/-- A table: ordered column names, their dtype labels (parallel list),
and the rows (each row a list of cells parallel to the column names). -/
structure DataFrame where
  colNames : List String
  colDtypes : List String
  rows : List (List Cell)
deriving DecidableEq, Repr

/-- Number of rows (Python len(df)). -/
def DataFrame.rowCount (df : DataFrame) : Nat := df.rows.length

/-- pandas df.empty: any axis of length zero. -/
def DataFrame.isEmptyDF (df : DataFrame) : Bool :=
  df.rows.isEmpty || df.colNames.isEmpty

/-- The cell of a row under a given column name (null when absent). -/
def DataFrame.cellAt (df : DataFrame) (row : List Cell) (c : String) : Cell :=
  match df.colNames.findIdx? (fun x => decide (x = c)) with
  | some i => row.getD i Cell.null
  | none => Cell.null

/-- A column of the table as the list of its cells, top to bottom. -/
def DataFrame.col (df : DataFrame) (c : String) : List Cell :=
  df.rows.map (fun row => df.cellAt row c)

/-- Dtype label of a column. -/
def DataFrame.dtypeOf (df : DataFrame) (c : String) : Option String :=
  match df.colNames.findIdx? (fun x => decide (x = c)) with
  | some i => df.colDtypes.get? i
  | none => none

/-- First-occurrence deduplication (pandas unique). -/
def distinctCells (l : List Cell) : List Cell :=
  l.foldl (fun acc c => if c ∈ acc then acc else acc ++ [c]) []

/-- Insertion of one cell into a sorted list under a given order. -/
def insertLE (le : Cell → Cell → Bool) (c : Cell) : List Cell → List Cell
  | [] => [c]
  | d :: r => if le c d then c :: d :: r else d :: insertLE le c r

/-- A total order on cells (constructor rank, then payload); on a
homogeneous string column it is the lexicographic order Python sorted
uses, and it keeps the embedding total on mixed columns where Python
sorted would raise. -/
def cellLE (a b : Cell) : Bool :=
  match a, b with
  | Cell.null, _ => true
  | _, Cell.null => false
  | Cell.num p, Cell.num q => decide (p ≤ q)
  | Cell.num _, _ => true
  | _, Cell.num _ => false
  | Cell.str s, Cell.str t => decide (s ≤ t)
  | Cell.str _, _ => true
  | _, Cell.str _ => false
  | Cell.date y o, Cell.date z p => tsLE ⟨y, o⟩ ⟨z, p⟩

/-- Insertion sort of cells (Python sorted). -/
def sortCells (l : List Cell) : List Cell :=
  l.foldr (insertLE cellLE) []

/-- Comma join (Python str.join with a comma separator). -/
def joinComma (l : List String) : String :=
  String.intercalate ", " l

/-- Values carried in the info map of a validation result. -/
inductive InfoVal where
  | nat : Nat → InfoVal
  | ratPair : ℚ → ℚ → InfoVal
  | strPair : String → String → InfoVal
  | strs : List String → InfoVal
  | cells : List Cell → InfoVal
  | nulls : List (String × Nat × ℚ) → InfoVal
deriving DecidableEq, Repr

/-- Insert into an association list with Python-dict semantics: an
existing key keeps its position and gets the new value, a new key is
appended. -/
def dictInsert : List (String × InfoVal) → String → InfoVal → List (String × InfoVal)
  | [], k, v => [(k, v)]
  | (k1, v1) :: rest, k, v =>
      if k1 = k then (k, v) :: rest else (k1, v1) :: dictInsert rest k v

/-- Python dict.update: insert every pair of the second map into the
first, later entries winning. -/
def dictUpdate (m : List (String × InfoVal)) (m2 : List (String × InfoVal)) :
    List (String × InfoVal) :=
  m2.foldl (fun acc kv => dictInsert acc kv.1 kv.2) m

/-- Container for validation results (class ValidationResult). -/
structure ValidationResult where
  is_valid : Bool
  errors : List String
  warnings : List String
  info : List (String × InfoVal)
deriving DecidableEq, Repr

/-- ValidationResult.add_error: append the message and clear validity. -/
def ValidationResult.add_error (r : ValidationResult) (m : String) : ValidationResult :=
  { r with errors := r.errors ++ [m], is_valid := false }

/-- ValidationResult.add_warning: append the message. -/
def ValidationResult.add_warning (r : ValidationResult) (m : String) : ValidationResult :=
  { r with warnings := r.warnings ++ [m] }

/-- ValidationResult.add_info: set a key of the info map. -/
def ValidationResult.add_info (r : ValidationResult) (k : String) (v : InfoVal) : ValidationResult :=
  { r with info := dictInsert r.info k v }

/-- The fresh result each pass starts from: ValidationResult(is_valid=True). -/
def freshResult : ValidationResult := ⟨true, [], [], []⟩

/-! ## Schema registry and constraint catalog (schema.py) -/

/-- Schema type enumeration (class SchemaType). -/
inductive SchemaType where
  | RAW : SchemaType
  | NORMALIZED : SchemaType
deriving DecidableEq, Repr

/-- RAW_REQUIRED_COLUMNS. -/
def RAW_REQUIRED_COLUMNS : List String :=
  ["site_no", "sample_datetime", "value", "variable", "unit"]

/-- NORMALIZED_REQUIRED_COLUMNS. -/
def NORMALIZED_REQUIRED_COLUMNS : List String :=
  ["station_id", "timestamp", "parameter", "value", "unit"]

/-- RAW_DTYPES. -/
def RAW_DTYPES : List (String × String) :=
  [("site_no", "string"), ("sample_datetime", "datetime64[ns]"),
   ("value", "float64"), ("variable", "string"), ("unit", "string"),
   ("qualifier_flag", "string"), ("sdl", "float64"), ("mdl", "float64"),
   ("variable_code", "string"), ("variable_fr", "string"),
   ("qa_status", "string"), ("sample_id", "string")]

/-- NORMALIZED_DTYPES. -/
def NORMALIZED_DTYPES : List (String × String) :=
  [("station_id", "string"), ("timestamp", "datetime64[ns]"),
   ("parameter", "string"), ("value", "float64"), ("unit", "string"),
   ("qualifier", "string"), ("qa_status", "string"), ("sample_id", "string")]

/-- DataConstraints.MIN_VALUE. -/
def MIN_VALUE : ℚ := -1000

/-- DataConstraints.MAX_VALUE. -/
def MAX_VALUE : ℚ := 1000000000

/-- DataConstraints.MIN_YEAR. -/
def MIN_YEAR : Int := 1900

/-- DataConstraints.MAX_YEAR. -/
def MAX_YEAR : Int := 2100

/-- DataConstraints.MAX_STATION_ID_LENGTH. -/
def MAX_STATION_ID_LENGTH : Nat := 50

/-- DataConstraints.VALID_QUALIFIERS. -/
def VALID_QUALIFIERS : List String := ["<", ">", "~", "E", "U", "nan"]

/-- DataConstraints.VALID_QA_STATUS. -/
def VALID_QA_STATUS : List String := ["P", "V", "R", "E", "nan"]

/-! ## Substring containment (Python in on strings) -/

/-- Boolean list-prefix test on characters. -/
def listPrefixB : List Char → List Char → Bool
  | [], _ => true
  | _ :: _, [] => false
  | a :: as, b :: bs => a == b && listPrefixB as bs

/-- Boolean list-infix test on characters. -/
def listInfixB (n : List Char) : List Char → Bool
  | [] => listPrefixB n []
  | c :: rest => listPrefixB n (c :: rest) || listInfixB n rest

/-- Python substring containment: needle in hay. -/
def strContains (hay needle : String) : Bool :=
  listInfixB needle.data hay.data

/-- Python str.lower, mapped over the characters (identical to the
library lowercasing on the ASCII dtype labels involved). -/
def strToLower (s : String) : String :=
  ⟨s.data.map Char.toLower⟩

/-! ## Dtype compatibility (DataValidator._dtypes_compatible) -/

/-- DataValidator._dtypes_compatible, translated clause for clause from
the source: lowercase both labels, then direct match, the float64
clause, the string clause, and the datetime-substring clause. -/
def dtypesCompatible (actual expected : String) : Bool :=
  let a := strToLower actual
  let e := strToLower expected
  if a == e then true
  else if e == "float64" && (a == "float32" || a == "float64" || a == "int64" || a == "int32") then true
  else if e == "string" && (a == "object" || a == "string") then true
  else if strContains e "datetime" && strContains a "datetime" then true
  else false

/-- Modelled from the claim text (not the source), for comparison: the
claim allows any floating-point expected label (float32 or float64) in
the numeric clause and accepts "timestamp" as well as "datetime" in the
substring clause. -/
def dtypesCompatibleClaim (actual expected : String) : Bool :=
  let a := strToLower actual
  let e := strToLower expected
  (a == e) ||
  ((e == "float32" || e == "float64") &&
    (a == "float32" || a == "float64" || a == "int64" || a == "int32")) ||
  (e == "string" && (a == "object" || a == "string")) ||
  ((strContains e "timestamp" || strContains e "datetime") &&
    (strContains a "timestamp" || strContains a "datetime"))

/-- The claim amended to the source behaviour: the numeric clause fires
only for the exact expected label float64, and the temporal clause
requires the substring "datetime" in both labels. -/
def dtypesCompatibleAmended (actual expected : String) : Bool :=
  let a := strToLower actual
  let e := strToLower expected
  (a == e) ||
  (e == "float64" && (a == "float32" || a == "float64" || a == "int64" || a == "int32")) ||
  (e == "string" && (a == "object" || a == "string")) ||
  (strContains e "datetime" && strContains a "datetime")

/-! ## validate_schema -/

/-- Required columns for a schema variant. -/
def requiredColumns : SchemaType → List String
  | SchemaType.RAW => RAW_REQUIRED_COLUMNS
  | SchemaType.NORMALIZED => NORMALIZED_REQUIRED_COLUMNS

/-- Expected dtype map for a schema variant. -/
def dtypesMap : SchemaType → List (String × String)
  | SchemaType.RAW => RAW_DTYPES
  | SchemaType.NORMALIZED => NORMALIZED_DTYPES

/-- The missing required columns, in declared order. -/
def schMissing (st : SchemaType) (df : DataFrame) : List String :=
  (requiredColumns st).filter (fun col => decide (col ∉ df.colNames))

/-- The unexpected columns, in table order (Python iterates the
unexpected-column set in hash order; the embedding uses table order). -/
def schUnexpected (st : SchemaType) (df : DataFrame) : List String :=
  df.colNames.filter (fun col => decide (col ∉ (dtypesMap st).map Prod.fst))

/-- The dtype mismatch lines, in table order. -/
def schDtypeIssues (st : SchemaType) (df : DataFrame) : List String :=
  (df.colNames.zip df.colDtypes).filterMap
    (fun ca =>
      match (dtypesMap st).lookup ca.1 with
      | some expected =>
          if dtypesCompatible ca.2 expected then none
          else some (ca.1 ++ ": expected " ++ expected ++ ", got " ++ ca.2)
      | none => none)

/-- The row and column count infos of the schema pass. -/
def rowInfoSection (df : DataFrame) (result : ValidationResult) : ValidationResult :=
  (result.add_info "row_count" (InfoVal.nat df.rowCount)).add_info
    "column_count" (InfoVal.nat df.colNames.length)

/-- The missing-required-columns check of the schema pass (error). -/
def missingSection (st : SchemaType) (df : DataFrame) (result : ValidationResult) :
    ValidationResult :=
  let missing_cols := schMissing st df
  if missing_cols.isEmpty then result
  else (result.add_error
          ("Missing required columns: " ++ joinComma missing_cols)).add_info
        "missing_columns" (InfoVal.strs missing_cols)

/-- The unexpected-columns check of the schema pass (warning). -/
def unexpectedSection (st : SchemaType) (df : DataFrame) (result : ValidationResult) :
    ValidationResult :=
  let unexpected := schUnexpected st df
  if unexpected.isEmpty then result
  else (result.add_warning
          ("Unexpected columns found: " ++ joinComma unexpected)).add_info
        "unexpected_columns" (InfoVal.strs unexpected)

/-- The dtype-compatibility check of the schema pass (warnings). -/
def dtypeSection (st : SchemaType) (df : DataFrame) (result : ValidationResult) :
    ValidationResult :=
  let dtype_issues := schDtypeIssues st df
  if dtype_issues.isEmpty then result
  else dtype_issues.foldl (fun r issue => r.add_warning ("  - " ++ issue))
        (result.add_warning "Data type mismatches found:")

/-- DataValidator.validate_schema: empty-table short circuit, row and
column counts, missing required columns (error), unexpected columns
(warning), dtype compatibility of present declared columns (warnings),
in source order. -/
def validate_schema (st : SchemaType) (df : DataFrame) : ValidationResult :=
  let result := freshResult
  if df.isEmptyDF then result.add_error "DataFrame is empty (0 rows)"
  else dtypeSection st df (unexpectedSection st df
        (missingSection st df (rowInfoSection df result)))

/-! ## validate_data_quality -/

/-- Critical columns per schema variant (validate_data_quality). -/
def criticalCols : SchemaType → List String
  | SchemaType.NORMALIZED => ["timestamp", "station_id", "parameter", "value"]
  | SchemaType.RAW => ["sample_datetime", "site_no", "variable", "value"]

/-- Date/time column per schema variant (validate_data_quality). -/
def dateCol : SchemaType → String
  | SchemaType.NORMALIZED => "timestamp"
  | SchemaType.RAW => "sample_datetime"

/-- Null count of a column (Series.isna().sum()). -/
def nullCountOf (df : DataFrame) (col : String) : Nat :=
  (df.col col).countP Cell.isNull

/-- The null-value message of the quality pass (format specifiers of
the source message abstracted). -/
def nullMsg (col : String) (count : Nat) (pct : ℚ) : String :=
  "Column " ++ col ++ " has " ++ toString count ++ " null values (" ++
    toString pct ++ " percent)"

/-- One iteration of the critical-column null loop of
validate_data_quality: skip absent columns and zero null counts,
record the count and percentage, error above 50 percent, warn above
10 percent. -/
def nullStep (df : DataFrame) (acc : ValidationResult × List (String × Nat × ℚ))
    (col : String) : ValidationResult × List (String × Nat × ℚ) :=
  let result := acc.1
  let null_counts := acc.2
  if col ∈ df.colNames then
    let null_count := nullCountOf df col
    if 0 < null_count then
      let null_pct : ℚ := ((null_count : ℚ) / (df.rowCount : ℚ)) * 100
      let null_counts := null_counts ++ [(col, null_count, null_pct)]
      if 50 < null_pct then
        (result.add_error (nullMsg col null_count null_pct), null_counts)
      else if 10 < null_pct then
        (result.add_warning (nullMsg col null_count null_pct), null_counts)
      else (result, null_counts)
    else (result, null_counts)
  else (result, null_counts)

/-- The null-analysis block of validate_data_quality: fold the loop over
the critical columns, then record null_counts when any nulls exist. -/
def nullSection (st : SchemaType) (df : DataFrame) (result : ValidationResult) :
    ValidationResult :=
  let p := (criticalCols st).foldl (nullStep df) (result, [])
  if p.2.isEmpty then p.1
  else p.1.add_info "null_counts" (InfoVal.nulls p.2)

/-- Minimum of a nonempty rational list (head-seeded fold). -/
def qListMin : List ℚ → ℚ
  | [] => 0
  | x :: r => r.foldl min x

/-- Maximum of a nonempty rational list (head-seeded fold). -/
def qListMax : List ℚ → ℚ
  | [] => 0
  | x :: r => r.foldl max x

/-- The value-range block of validate_data_quality: on the value column
drop nulls, record the range, and warn on values beyond either bound. -/
def valueSection (df : DataFrame) (result : ValidationResult) : ValidationResult :=
  if "value" ∈ df.colNames then
    let non_null_values := (df.col "value").filterMap Cell.asQ
    if non_null_values.isEmpty then result
    else
      let min_val := qListMin non_null_values
      let max_val := qListMax non_null_values
      let result := result.add_info "value_range" (InfoVal.ratPair min_val max_val)
      let result :=
        if min_val < MIN_VALUE then
          result.add_warning
            (toString (non_null_values.countP (fun v => decide (v < MIN_VALUE))) ++
              " values below minimum threshold")
        else result
      let result :=
        if MAX_VALUE < max_val then
          result.add_warning
            (toString (non_null_values.countP (fun v => decide (MAX_VALUE < v))) ++
              " values above maximum threshold")
        else result
      result
  else result

/-- The date column of the variant, after coercion (pd.to_datetime with
errors=coerce). -/
def coercedDates (st : SchemaType) (df : DataFrame) : List (Option Timestamp) :=
  (df.col (dateCol st)).map coerceDate

/-- Coercion failures beyond the entries that were already null:
dates.isna().sum() - df[date_col].isna().sum(). -/
def dsInvalidCount (st : SchemaType) (df : DataFrame) : Nat :=
  (coercedDates st df).countP (fun d => d.isNone) -
    (df.col (dateCol st)).countP Cell.isNull

/-- The successfully parsed dates (dates.dropna()). -/
def dsValidDates (st : SchemaType) (df : DataFrame) : List Timestamp :=
  (coercedDates st df).filterMap id

/-- The unparseable-datetime error message. -/
def invalidDatesMsg (n : Nat) : String :=
  toString n ++ " datetime values could not be parsed"

/-- The early-date warning message. -/
def lowYearMsg (y : Int) : String :=
  "Dates before " ++ toString MIN_YEAR ++ " found (earliest: " ++ toString y ++ ")"

/-- The late-date error message. -/
def highYearMsg (y : Int) : String :=
  "Dates after " ++ toString MAX_YEAR ++ " found (latest: " ++ toString y ++ ")"

/-- The future-timestamp warning message. -/
def futureMsg (n : Nat) : String :=
  toString n ++ " timestamps are in the future"

/-- The temporal block of validate_data_quality: coerce the date column,
error on coercion failures beyond pre-existing nulls, record the date
range, warn below MIN_YEAR, error above MAX_YEAR, warn on timestamps
strictly after the current time. -/
def dateSection (st : SchemaType) (df : DataFrame) (now : Timestamp)
    (result : ValidationResult) : ValidationResult :=
  let invalid_dates := dsInvalidCount st df
  let result :=
    if 0 < invalid_dates then result.add_error (invalidDatesMsg invalid_dates)
    else result
  match dsValidDates st df with
  | [] => result
  | d :: rest =>
    let min_date := tsListMin d rest
    let max_date := tsListMax d rest
    let result := result.add_info "date_range"
      (InfoVal.strPair (tsToString min_date) (tsToString max_date))
    let result :=
      if min_date.year < MIN_YEAR then result.add_warning (lowYearMsg min_date.year)
      else result
    let result :=
      if MAX_YEAR < max_date.year then result.add_error (highYearMsg max_date.year)
      else result
    let future_count := (d :: rest).countP (fun t => tsLT now t)
    let result :=
      if 0 < future_count then result.add_warning (futureMsg future_count)
      else result
    result

/-- DataValidator.validate_data_quality: empty-table short circuit, then
the null, value-range and temporal blocks in source order.  The wall
clock read by pd.Timestamp.now() is the explicit now parameter. -/
def validate_data_quality (st : SchemaType) (df : DataFrame) (now : Timestamp) :
    ValidationResult :=
  let result := freshResult
  if df.isEmptyDF then result.add_error "Cannot validate quality of empty DataFrame"
  else
    let result := nullSection st df result
    let result := valueSection df result
    if dateCol st ∈ df.colNames then dateSection st df now result
    else result

/-! ## validate_business_rules -/

/-- Identity-key columns for duplicate detection, per schema variant. -/
def idCols : SchemaType → List String
  | SchemaType.NORMALIZED => ["timestamp", "station_id", "parameter"]
  | SchemaType.RAW => ["sample_datetime", "site_no", "variable"]

/-- Station column per schema variant. -/
def stationCol : SchemaType → String
  | SchemaType.NORMALIZED => "station_id"
  | SchemaType.RAW => "site_no"

/-- Parameter column per schema variant. -/
def paramCol : SchemaType → String
  | SchemaType.NORMALIZED => "parameter"
  | SchemaType.RAW => "variable"

/-- Qualifier column per schema variant. -/
def qualCol : SchemaType → String
  | SchemaType.NORMALIZED => "qualifier"
  | SchemaType.RAW => "qualifier_flag"

/-- The identity-key tuple of every row, in row order. -/
def keyRows (st : SchemaType) (df : DataFrame) : List (List Cell) :=
  df.rows.map (fun row => (idCols st).map (fun c => df.cellAt row c))

/-- pandas duplicated flags with keep=first over a running list of seen
keys: a row is flagged when its key already occurred above it. -/
def dupFlags : List (List Cell) → List (List Cell) → List Bool
  | _, [] => []
  | seen, k :: rest => decide (k ∈ seen) :: dupFlags (k :: seen) rest

/-- df.duplicated(subset=id_cols).sum(): the number of rows flagged as a
duplicate of an earlier identical-key row. -/
def pandasDupCount (keys : List (List Cell)) : Nat :=
  (dupFlags [] keys).count true

/-- Modelled from the claim text, for comparison: the number of row
indices whose key tuple equals the key tuple of some strictly earlier
row, i.e. occurs among the keys of the rows above it
(all-but-first-occurrence semantics). -/
def earlierDupCount (keys : List (List Cell)) : Nat :=
  (List.range keys.length).countP
    (fun i => decide (keys.getD i [] ∈ keys.take i))

/-- The duplicate-record warning message. -/
def dupMsg (n : Nat) : String :=
  toString n ++ " duplicate records found (same timestamp + station + parameter)"

/-- The duplicate-detection block of validate_business_rules. -/
def dupSection (st : SchemaType) (df : DataFrame) (result : ValidationResult) :
    ValidationResult :=
  if (idCols st).all (fun c => decide (c ∈ df.colNames)) then
    let duplicate_count := pandasDupCount (keyRows st df)
    if 0 < duplicate_count then
      (result.add_warning (dupMsg duplicate_count)).add_info
        "duplicate_count" (InfoVal.nat duplicate_count)
    else result
  else result

/-- Distinct non-null count of a column (Series.nunique, which drops
nulls). -/
def nuniqueOf (df : DataFrame) (col : String) : Nat :=
  (distinctCells ((df.col col).filter (fun c => !c.isNull))).length

/-- The station block of validate_business_rules: distinct-station
count (error when zero) and oversized-identifier warning for
object-dtype station columns. -/
def stationSection (st : SchemaType) (df : DataFrame) (result : ValidationResult) :
    ValidationResult :=
  let station_col := stationCol st
  if station_col ∈ df.colNames then
    let unique_stations := nuniqueOf df station_col
    let result := result.add_info "unique_stations" (InfoVal.nat unique_stations)
    let result :=
      if unique_stations = 0 then result.add_error "No unique stations found"
      else result
    if df.dtypeOf station_col = some "object" then
      let max_len := ((df.col station_col).filterMap Cell.strLen).foldl max 0
      if MAX_STATION_ID_LENGTH < max_len then
        result.add_warning ("Station IDs exceed max length (" ++ toString max_len ++
          " over " ++ toString MAX_STATION_ID_LENGTH ++ ")")
      else result
    else result
  else result

/-- The parameter block of validate_business_rules: distinct-parameter
count (error when zero) and the sorted list of distinct non-null
parameter values. -/
def paramSection (st : SchemaType) (df : DataFrame) (result : ValidationResult) :
    ValidationResult :=
  let param_col := paramCol st
  if param_col ∈ df.colNames then
    let unique_params := nuniqueOf df param_col
    let result := result.add_info "unique_parameters" (InfoVal.nat unique_params)
    let result :=
      if unique_params = 0 then result.add_error "No unique parameters found"
      else result
    let param_list := distinctCells (df.col param_col)
    result.add_info "parameters"
      (InfoVal.cells (sortCells (param_list.filter (fun c => !c.isNull))))
  else result

/-- The qualifier block of validate_business_rules: distinct non-null
qualifier values outside VALID_QUALIFIERS trigger one warning. -/
def qualSection (st : SchemaType) (df : DataFrame) (result : ValidationResult) :
    ValidationResult :=
  let qual_col := qualCol st
  if qual_col ∈ df.colNames then
    let unique_quals := distinctCells ((df.col qual_col).filter (fun c => !c.isNull))
    let invalid_quals := unique_quals.filter
      (fun q => decide (Cell.pyStr q ∉ VALID_QUALIFIERS))
    if invalid_quals.isEmpty then result
    else result.add_warning
      ("Unknown qualifier codes found: " ++ joinComma (invalid_quals.map Cell.pyStr))
  else result

/-- The QA-status block of validate_business_rules; the source addresses
the fixed column name qa_status regardless of schema variant. -/
def qaSection (df : DataFrame) (result : ValidationResult) : ValidationResult :=
  if "qa_status" ∈ df.colNames then
    let unique_qa := distinctCells ((df.col "qa_status").filter (fun c => !c.isNull))
    let invalid_qa := unique_qa.filter
      (fun q => decide (Cell.pyStr q ∉ VALID_QA_STATUS))
    if invalid_qa.isEmpty then result
    else result.add_warning
      ("Unknown QA status codes found: " ++ joinComma (invalid_qa.map Cell.pyStr))
  else result

/-- DataValidator.validate_business_rules: empty tables return the fresh
valid result untouched; otherwise the duplicate, station, parameter,
qualifier and QA blocks run in source order. -/
def validate_business_rules (st : SchemaType) (df : DataFrame) : ValidationResult :=
  let result := freshResult
  if df.isEmptyDF then result
  else
    qaSection df (qualSection st df (paramSection st df
      (stationSection st df (dupSection st df result))))

/-! ## validate_all -/

/-- DataValidator.validate_all: run the three passes, concatenate their
errors and warnings in pass order, overlay their info maps starting from
the fresh combined result, and recompute validity as length of the
combined error list being zero. -/
def validate_all (st : SchemaType) (df : DataFrame) (now : Timestamp) :
    ValidationResult :=
  let combined := freshResult
  let schema_result := validate_schema st df
  let quality_result := validate_data_quality st df now
  let business_result := validate_business_rules st df
  let errors := combined.errors ++ schema_result.errors ++ quality_result.errors ++
    business_result.errors
  let warnings := combined.warnings ++ schema_result.warnings ++
    quality_result.warnings ++ business_result.warnings
  let info := dictUpdate (dictUpdate (dictUpdate combined.info schema_result.info)
    quality_result.info) business_result.info
  ⟨errors.length == 0, errors, warnings, info⟩

/-- validate_raw_data: validate_all bound to the RAW variant. -/
def validate_raw_data (df : DataFrame) (now : Timestamp) : ValidationResult :=
  validate_all SchemaType.RAW df now

/-- validate_normalized_data: validate_all bound to the NORMALIZED
variant. -/
def validate_normalized_data (df : DataFrame) (now : Timestamp) : ValidationResult :=
  validate_all SchemaType.NORMALIZED df now

/-! ## Decomposition of the temporal block, used by several lemmas -/

/-- The error contributed by datetime coercion failures. -/
def dsInvErr (st : SchemaType) (df : DataFrame) : List String :=
  if 0 < dsInvalidCount st df then [invalidDatesMsg (dsInvalidCount st df)] else []

/-- The error contributed by a latest parsed year beyond MAX_YEAR. -/
def dsYearErr (st : SchemaType) (df : DataFrame) : List String :=
  match dsValidDates st df with
  | [] => []
  | d :: rest =>
      if MAX_YEAR < (tsListMax d rest).year then [highYearMsg (tsListMax d rest).year]
      else []

/-- The warning contributed by an earliest parsed year before MIN_YEAR. -/
def dsLowWarn (st : SchemaType) (df : DataFrame) : List String :=
  match dsValidDates st df with
  | [] => []
  | d :: rest =>
      if (tsListMin d rest).year < MIN_YEAR then [lowYearMsg (tsListMin d rest).year]
      else []

/-- The warning contributed by parsed timestamps strictly after now. -/
def dsFutWarn (st : SchemaType) (df : DataFrame) (now : Timestamp) : List String :=
  match dsValidDates st df with
  | [] => []
  | d :: rest =>
      if 0 < (d :: rest).countP (fun t => tsLT now t) then
        [futureMsg ((d :: rest).countP (fun t => tsLT now t))]
      else []

/-- All errors of the temporal block, in emission order. -/
def dsErrors (st : SchemaType) (df : DataFrame) : List String :=
  dsInvErr st df ++ dsYearErr st df

/-- All warnings of the temporal block, in emission order. -/
def dsWarnings (st : SchemaType) (df : DataFrame) (now : Timestamp) : List String :=
  dsLowWarn st df ++ dsFutWarn st df now

/-- The info-map effect of the temporal block. -/
def dsInfoApply (st : SchemaType) (df : DataFrame)
    (m : List (String × InfoVal)) : List (String × InfoVal) :=
  match dsValidDates st df with
  | [] => m
  | d :: rest =>
      dictInsert m "date_range"
        (InfoVal.strPair (tsToString (tsListMin d rest)) (tsToString (tsListMax d rest)))

/-! ## Auxiliary definitions for the claim statements -/

/-- The invariant of the claims: validity is exactly emptiness of the
error sequence. -/
def Inv (r : ValidationResult) : Prop := r.is_valid = r.errors.isEmpty

/-- The errors of the schema pass on a nonempty table. -/
def schErrors (st : SchemaType) (df : DataFrame) : List String :=
  if (schMissing st df).isEmpty then []
  else ["Missing required columns: " ++ joinComma (schMissing st df)]

/-- The warnings of the schema pass on a nonempty table. -/
def schWarnings (st : SchemaType) (df : DataFrame) : List String :=
  (if (schUnexpected st df).isEmpty then []
   else ["Unexpected columns found: " ++ joinComma (schUnexpected st df)]) ++
  (if (schDtypeIssues st df).isEmpty then []
   else "Data type mismatches found:" ::
     (schDtypeIssues st df).map (fun i => "  - " ++ i))

/-- The info map of the schema pass on a nonempty table. -/
def schInfo (st : SchemaType) (df : DataFrame) : List (String × InfoVal) :=
  [("row_count", InfoVal.nat df.rowCount),
   ("column_count", InfoVal.nat df.colNames.length)] ++
  (if (schMissing st df).isEmpty then []
   else [("missing_columns", InfoVal.strs (schMissing st df))]) ++
  (if (schUnexpected st df).isEmpty then []
   else [("unexpected_columns", InfoVal.strs (schUnexpected st df))])

/-- A two-row table whose value column has exactly one null: the
50-percent boundary case. -/
def dfC4 : DataFrame :=
  ⟨["value"], ["float64"], [[Cell.null], [Cell.num 3]]⟩

/-- A table with one date in 1899 and one in 2101. -/
def dfC5 : DataFrame :=
  ⟨["timestamp"], ["datetime64[ns]"], [[Cell.date 1899 0], [Cell.date 2101 0]]⟩

/-- Two rows identical in all three identity-key columns but with
different values. -/
def dfC7 : DataFrame :=
  ⟨["timestamp", "station_id", "parameter", "value"],
   ["datetime64[ns]", "string", "string", "float64"],
   [[Cell.date 2020 1, Cell.str "S", Cell.str "PH", Cell.num 1],
    [Cell.date 2020 1, Cell.str "S", Cell.str "PH", Cell.num 2]]⟩

/-- A zero-row table that declares all required NORMALIZED columns. -/
def dfEmpty : DataFrame :=
  ⟨["station_id", "timestamp", "parameter", "value", "unit"],
   ["string", "datetime64[ns]", "string", "float64", "string"], []⟩

/-- A table with a single timestamp lying between the two clock
readings of the counterexample. -/
def dfC9 : DataFrame :=
  ⟨["timestamp"], ["datetime64[ns]"], [[Cell.date 2020 5]]⟩


lemma isEmptyAppend (l l2 : List String) : (l ++ l2).isEmpty = (l.isEmpty && l2.isEmpty) := by
  cases l <;> simp [List.isEmpty]

/-- The temporal block appends exactly its decomposed errors and
warnings, applies its info effect, and conjoins validity with the
absence of its errors. -/
lemma dateSection_eq (st : SchemaType) (df : DataFrame) (now : Timestamp)
    (r : ValidationResult) :
    dateSection st df now r =
      ⟨r.is_valid && (dsErrors st df).isEmpty,
       r.errors ++ dsErrors st df,
       r.warnings ++ dsWarnings st df now,
       dsInfoApply st df r.info⟩ := by
  unfold dateSection dsErrors dsWarnings dsInvErr dsYearErr dsLowWarn dsFutWarn dsInfoApply
  cases h : dsValidDates st df with
  | nil =>
      by_cases h1 : 0 < dsInvalidCount st df <;>
      simp [h, h1, ValidationResult.add_error]
  | cons d rest =>
      by_cases h1 : 0 < dsInvalidCount st df <;>
      by_cases h2 : (tsListMin d rest).year < MIN_YEAR <;>
      by_cases h3 : MAX_YEAR < (tsListMax d rest).year <;>
      by_cases h4 : 0 < (d :: rest).countP (fun t => tsLT now t) <;>
      simp [h, h1, h2, h3, h4, ValidationResult.add_error, ValidationResult.add_warning,
        ValidationResult.add_info]

/-! ## The validity invariant -/


lemma inv_fresh : Inv freshResult := rfl

lemma inv_add_error (r : ValidationResult) (m : String) : Inv (r.add_error m) := by
  simp [Inv, ValidationResult.add_error, isEmptyAppend]

lemma inv_add_warning (r : ValidationResult) (m : String) (h : Inv r) :
    Inv (r.add_warning m) := h

lemma inv_add_info (r : ValidationResult) (k : String) (v : InfoVal) (h : Inv r) :
    Inv (r.add_info k v) := h

/-! ## Characterization of validate_schema on nonempty tables -/


lemma foldWarn_eq (l : List String) (r : ValidationResult) :
    l.foldl (fun r issue => r.add_warning ("  - " ++ issue)) r =
      { r with warnings := r.warnings ++ l.map (fun i => "  - " ++ i) } := by
  induction l generalizing r with
  | nil => simp
  | cons a t ih =>
      rw [List.foldl_cons, ih]
      simp [ValidationResult.add_warning]

lemma rowInfoSection_eq (df : DataFrame) (r : ValidationResult) :
    rowInfoSection df r =
      ⟨r.is_valid, r.errors, r.warnings,
        dictInsert (dictInsert r.info "row_count" (InfoVal.nat df.rowCount))
          "column_count" (InfoVal.nat df.colNames.length)⟩ := by
  simp [rowInfoSection, ValidationResult.add_info]

lemma missingSection_eq (st : SchemaType) (df : DataFrame) (r : ValidationResult) :
    missingSection st df r =
      ⟨r.is_valid && (schErrors st df).isEmpty,
       r.errors ++ schErrors st df, r.warnings,
       if (schMissing st df).isEmpty then r.info
       else dictInsert r.info "missing_columns" (InfoVal.strs (schMissing st df))⟩ := by
  unfold missingSection schErrors
  by_cases h1 : (schMissing st df).isEmpty <;>
  simp [h1, ValidationResult.add_error, ValidationResult.add_info]

lemma unexpectedSection_eq (st : SchemaType) (df : DataFrame) (r : ValidationResult) :
    unexpectedSection st df r =
      ⟨r.is_valid, r.errors,
       r.warnings ++
         (if (schUnexpected st df).isEmpty then []
          else ["Unexpected columns found: " ++ joinComma (schUnexpected st df)]),
       if (schUnexpected st df).isEmpty then r.info
       else dictInsert r.info "unexpected_columns"
         (InfoVal.strs (schUnexpected st df))⟩ := by
  unfold unexpectedSection
  by_cases h1 : (schUnexpected st df).isEmpty <;>
  simp [h1, ValidationResult.add_warning, ValidationResult.add_info]

lemma dtypeSection_eq (st : SchemaType) (df : DataFrame) (r : ValidationResult) :
    dtypeSection st df r =
      ⟨r.is_valid, r.errors,
       r.warnings ++
         (if (schDtypeIssues st df).isEmpty then []
          else "Data type mismatches found:" ::
            (schDtypeIssues st df).map (fun i => "  - " ++ i)),
       r.info⟩ := by
  unfold dtypeSection
  dsimp only
  by_cases h1 : (schDtypeIssues st df).isEmpty
  · simp [h1]
  · rw [if_neg (by simp [h1]), foldWarn_eq]
    have h2 : schDtypeIssues st df ≠ [] := by
      simpa [List.isEmpty_iff] using h1
    simp [ValidationResult.add_warning, h2]

/-- Full characterization of the schema pass on a nonempty table. -/
lemma validate_schema_eq (st : SchemaType) (df : DataFrame)
    (h : df.isEmptyDF = false) :
    validate_schema st df =
      ⟨(schErrors st df).isEmpty, schErrors st df, schWarnings st df,
        schInfo st df⟩ := by
  unfold validate_schema schWarnings schInfo
  dsimp only
  rw [if_neg (by simp [h]), rowInfoSection_eq, missingSection_eq,
    unexpectedSection_eq, dtypeSection_eq]
  by_cases h1 : schMissing st df = [] <;>
  by_cases h2 : schUnexpected st df = [] <;>
  simp [h1, h2, freshResult, dictInsert, schErrors, List.isEmpty_iff]

lemma inv_validate_schema (st : SchemaType) (df : DataFrame) :
    Inv (validate_schema st df) := by
  cases h : df.isEmptyDF
  · rw [validate_schema_eq st df h]; rfl
  · unfold validate_schema
    simp only [h, if_pos]
    exact inv_add_error _ _

/-! ## The invariant for the quality and business passes -/

lemma inv_nullStep (df : DataFrame) (p : ValidationResult × List (String × Nat × ℚ))
    (col : String) (h : Inv p.1) : Inv (nullStep df p col).1 := by
  unfold nullStep
  dsimp only
  split
  · split
    · split
      · exact inv_add_error _ _
      · split
        · exact inv_add_warning _ _ h
        · exact h
    · exact h
  · exact h

lemma inv_nullFold (df : DataFrame) (cols : List String)
    (p : ValidationResult × List (String × Nat × ℚ)) (h : Inv p.1) :
    Inv ((cols.foldl (nullStep df) p).1) := by
  induction cols generalizing p with
  | nil => exact h
  | cons c t ih => exact ih _ (inv_nullStep df p c h)

lemma inv_nullSection (st : SchemaType) (df : DataFrame) (r : ValidationResult)
    (h : Inv r) : Inv (nullSection st df r) := by
  unfold nullSection
  dsimp only
  split
  · exact inv_nullFold df _ _ h
  · exact inv_add_info _ _ _ (inv_nullFold df _ _ h)

lemma inv_valueSection (df : DataFrame) (r : ValidationResult) (h : Inv r) :
    Inv (valueSection df r) := by
  unfold valueSection
  dsimp only
  split
  · split
    · exact h
    · split <;> split <;>
      first
      | exact inv_add_warning _ _ (inv_add_warning _ _ (inv_add_info _ _ _ h))
      | exact inv_add_warning _ _ (inv_add_info _ _ _ h)
      | exact inv_add_info _ _ _ h
  · exact h

lemma inv_dateSection (st : SchemaType) (df : DataFrame) (now : Timestamp)
    (r : ValidationResult) (h : Inv r) : Inv (dateSection st df now r) := by
  rw [dateSection_eq]
  unfold Inv at *
  simp [h, isEmptyAppend]

lemma inv_validate_data_quality (st : SchemaType) (df : DataFrame) (now : Timestamp) :
    Inv (validate_data_quality st df now) := by
  unfold validate_data_quality
  dsimp only
  split
  · exact inv_add_error _ _
  · split
    · exact inv_dateSection _ _ _ _
        (inv_valueSection _ _ (inv_nullSection _ _ _ inv_fresh))
    · exact inv_valueSection _ _ (inv_nullSection _ _ _ inv_fresh)

lemma inv_dupSection (st : SchemaType) (df : DataFrame) (r : ValidationResult)
    (h : Inv r) : Inv (dupSection st df r) := by
  unfold dupSection
  dsimp only
  split
  · split
    · exact inv_add_info _ _ _ (inv_add_warning _ _ h)
    · exact h
  · exact h

lemma inv_stationSection (st : SchemaType) (df : DataFrame) (r : ValidationResult)
    (h : Inv r) : Inv (stationSection st df r) := by
  unfold stationSection
  dsimp only
  split
  · split <;> split <;>
    first
    | exact inv_add_warning _ _ (inv_add_error _ _)
    | exact inv_add_warning _ _ (inv_add_info _ _ _ h)
    | exact inv_add_error _ _
    | exact inv_add_info _ _ _ h
    | skip
    all_goals split <;>
      first
      | exact inv_add_warning _ _ (inv_add_error _ _)
      | exact inv_add_warning _ _ (inv_add_info _ _ _ h)
      | exact inv_add_error _ _
      | exact inv_add_info _ _ _ h
  · exact h

lemma inv_paramSection (st : SchemaType) (df : DataFrame) (r : ValidationResult)
    (h : Inv r) : Inv (paramSection st df r) := by
  unfold paramSection
  dsimp only
  split
  · split
    · exact inv_add_info _ _ _ (inv_add_error _ _)
    · exact inv_add_info _ _ _ (inv_add_info _ _ _ h)
  · exact h

lemma inv_qualSection (st : SchemaType) (df : DataFrame) (r : ValidationResult)
    (h : Inv r) : Inv (qualSection st df r) := by
  unfold qualSection
  dsimp only
  split
  · split
    · exact h
    · exact inv_add_warning _ _ h
  · exact h

lemma inv_qaSection (df : DataFrame) (r : ValidationResult) (h : Inv r) :
    Inv (qaSection df r) := by
  unfold qaSection
  dsimp only
  split
  · split
    · exact h
    · exact inv_add_warning _ _ h
  · exact h

lemma inv_validate_business_rules (st : SchemaType) (df : DataFrame) :
    Inv (validate_business_rules st df) := by
  unfold validate_business_rules
  dsimp only
  split
  · exact inv_fresh
  · exact inv_qaSection _ _ (inv_qualSection _ _ _ (inv_paramSection _ _ _
      (inv_stationSection _ _ _ (inv_dupSection _ _ _ inv_fresh))))

lemma lenBeqZero (l : List String) : (l.length == 0) = l.isEmpty := by
  cases l <;> rfl

lemma inv_validate_all (st : SchemaType) (df : DataFrame) (now : Timestamp) :
    Inv (validate_all st df now) := by
  unfold validate_all Inv
  dsimp only
  exact lenBeqZero _

/-! ## Association-list lemmas for the info overlay -/

lemma dictInsert_fresh (m : List (String × InfoVal)) (k : String) (v : InfoVal)
    (h : k ∉ m.map Prod.fst) : dictInsert m k v = m ++ [(k, v)] := by
  induction m with
  | nil => rfl
  | cons p rest ih =>
      obtain ⟨k1, v1⟩ := p
      simp only [List.map_cons, List.mem_cons, not_or] at h
      unfold dictInsert
      rw [if_neg (fun he => h.1 he.symm), ih h.2]
      simp

lemma dictUpdate_fresh (m2 : List (String × InfoVal)) (m : List (String × InfoVal))
    (hdisj : ∀ k ∈ m2.map Prod.fst, k ∉ m.map Prod.fst)
    (hnd : (m2.map Prod.fst).Nodup) : dictUpdate m m2 = m ++ m2 := by
  induction m2 generalizing m with
  | nil => simp [dictUpdate]
  | cons p rest ih =>
      obtain ⟨k, v⟩ := p
      have e1 : dictUpdate m ((k, v) :: rest) = dictUpdate (dictInsert m k v) rest := rfl
      simp only [List.map_cons, List.nodup_cons] at hnd
      rw [e1, dictInsert_fresh m k v (hdisj k (by simp))]
      rw [ih (m ++ [(k, v)])]
      · simp
      · intro k2 hk2
        simp only [List.map_append, List.mem_append, List.map_cons, List.map_nil,
          List.mem_singleton, not_or]
        exact ⟨hdisj k2 (by simp [hk2]), by
          intro he
          exact hnd.1 (he ▸ hk2)⟩
      · exact hnd.2

lemma dictUpdate_nil_eq (m : List (String × InfoVal))
    (hnd : (m.map Prod.fst).Nodup) : dictUpdate [] m = m := by
  simpa using dictUpdate_fresh m [] (by simp) hnd

/-- The info keys of the schema pass carry no duplicates. -/
lemma schemaInfo_nodup (st : SchemaType) (df : DataFrame) :
    ((validate_schema st df).info.map Prod.fst).Nodup := by
  cases h : df.isEmptyDF
  · rw [validate_schema_eq st df h]
    unfold schInfo
    by_cases h1 : (schMissing st df).isEmpty <;>
    by_cases h2 : (schUnexpected st df).isEmpty <;>
    simp [h1, h2]
  · unfold validate_schema
    simp [h, ValidationResult.add_error, freshResult]

/-! ## Claim theorems C1 and C2 -/

/-- C1: for every result produced by validate_schema,
validate_data_quality, validate_business_rules or validate_all, the
is_valid flag equals emptiness of the error sequence, and every
add_error call both appends its message and clears validity. -/
theorem C1_validity_invariant (st : SchemaType) (df : DataFrame) (now : Timestamp)
    (r : ValidationResult) (m : String) :
    (validate_schema st df).is_valid = (validate_schema st df).errors.isEmpty ∧
    (validate_data_quality st df now).is_valid =
      (validate_data_quality st df now).errors.isEmpty ∧
    (validate_business_rules st df).is_valid =
      (validate_business_rules st df).errors.isEmpty ∧
    (validate_all st df now).is_valid = (validate_all st df now).errors.isEmpty ∧
    (r.add_error m).errors = r.errors ++ [m] ∧ (r.add_error m).is_valid = false :=
  ⟨inv_validate_schema st df, inv_validate_data_quality st df now,
   inv_validate_business_rules st df, inv_validate_all st df now, rfl, rfl⟩

/-- C2: validate_all concatenates the three passes' error and warning
sequences in pass order, overlays their info maps with a later pass
winning on key collision, and recomputes validity as emptiness of the
concatenated error sequence. -/
theorem C2_validate_all_combination (st : SchemaType) (df : DataFrame)
    (now : Timestamp) :
    (validate_all st df now).errors =
      (validate_schema st df).errors ++ (validate_data_quality st df now).errors ++
        (validate_business_rules st df).errors ∧
    (validate_all st df now).warnings =
      (validate_schema st df).warnings ++
        (validate_data_quality st df now).warnings ++
        (validate_business_rules st df).warnings ∧
    (validate_all st df now).info =
      dictUpdate (dictUpdate (validate_schema st df).info
        (validate_data_quality st df now).info)
        (validate_business_rules st df).info ∧
    (validate_all st df now).is_valid =
      ((validate_schema st df).errors ++ (validate_data_quality st df now).errors ++
        (validate_business_rules st df).errors).isEmpty := by
  refine ⟨?_, ?_, ?_, ?_⟩
  · unfold validate_all
    dsimp only
    simp [freshResult]
  · unfold validate_all
    dsimp only
    simp [freshResult]
  · unfold validate_all
    dsimp only
    rw [show freshResult.info = [] from rfl,
      dictUpdate_nil_eq _ (schemaInfo_nodup st df)]
  · unfold validate_all
    dsimp only
    rw [lenBeqZero]
    simp [freshResult]

/-! ## Claim C3: the dtype-compatibility predicate -/

lemma iteTT (c x : Bool) : (if c then true else x) = (c || x) := by
  cases c <;> simp

lemma iteTF (c : Bool) : (if c then true else false) = c := by
  cases c <;> simp

/-- C3 counterexample: the claim-worded predicate and the source
predicate disagree.  With expected float32 and actual float64 the claim
declares compatibility (expected is a floating-point type, actual is a
64-bit float) but the source only fires its numeric clause on the exact
expected label float64; with two unequal labels both containing
"timestamp" but not "datetime" the claim declares compatibility but the
source does not. -/
theorem C3_dtype_compat_counterexample :
    dtypesCompatible "float64" "float32" = false ∧
    dtypesCompatibleClaim "float64" "float32" = true ∧
    dtypesCompatible "timestamp64" "timestamp32" = false ∧
    dtypesCompatibleClaim "timestamp64" "timestamp32" = true := by
  refine ⟨by decide, by decide, by decide, by decide⟩

/-- C3 amended: applied to lowercased labels, the predicate returns
compatible exactly when the labels are equal, or the expected label is
exactly float64 and the actual label is a 32- or 64-bit integer or
floating-point type, or the expected label is string and the actual
label is object or string, or both labels contain "datetime" as a
substring; it is incompatible otherwise, and it is pure and total. -/
theorem C3_dtype_compat_amended (actual expected : String) :
    dtypesCompatible actual expected = dtypesCompatibleAmended actual expected := by
  unfold dtypesCompatible dtypesCompatibleAmended
  dsimp only
  rw [iteTT, iteTT, iteTT, iteTF]
  simp [Bool.or_assoc]

/-! ## Claim C4: null-percentage thresholds -/

/-- C4: for a present critical column with at least one null, the loop
step of the null analysis emits an error exactly when the null
percentage exceeds 50 (rows < 2 times nulls), a warning exactly when it
exceeds 10 but not 50, and nothing otherwise; the boundaries are exact,
since exactly 50 percent (rows = 2 times nulls) falls into the warning
branch and exactly 10 percent (rows = 10 times nulls) into the silent
branch.  The count and percentage are recorded in every branch. -/
theorem C4_null_threshold_policy (df : DataFrame) (r : ValidationResult)
    (acc : List (String × Nat × ℚ)) (col : String)
    (hcol : col ∈ df.colNames) (hn : 0 < nullCountOf df col) :
    nullStep df (r, acc) col =
      (let n := nullCountOf df col
       let pct : ℚ := ((n : ℚ) / (df.rowCount : ℚ)) * 100
       let acc2 := acc ++ [(col, n, pct)]
       if df.rowCount < 2 * n then (r.add_error (nullMsg col n pct), acc2)
       else if df.rowCount < 10 * n then (r.add_warning (nullMsg col n pct), acc2)
       else (r, acc2)) := by
  have hrow : 0 < df.rowCount := by
    have h1 : nullCountOf df col ≤ df.rowCount := by
      have := List.countP_le_length (l := df.col col) (p := Cell.isNull)
      simpa [nullCountOf, DataFrame.col] using this
    omega
  have hL : (0 : ℚ) < (df.rowCount : ℚ) := by exact_mod_cast hrow
  have e50 : (50 < ((nullCountOf df col : ℚ) / (df.rowCount : ℚ)) * 100) ↔
      (df.rowCount < 2 * nullCountOf df col) := by
    rw [div_mul_eq_mul_div, lt_div_iff₀ hL, ← Nat.cast_lt (α := ℚ)]
    push_cast
    constructor <;> intro h <;> linarith
  have e10 : (10 < ((nullCountOf df col : ℚ) / (df.rowCount : ℚ)) * 100) ↔
      (df.rowCount < 10 * nullCountOf df col) := by
    rw [div_mul_eq_mul_div, lt_div_iff₀ hL, ← Nat.cast_lt (α := ℚ)]
    push_cast
    constructor <;> intro h <;> linarith
  unfold nullStep
  dsimp only
  rw [if_pos hcol, if_pos hn]
  by_cases h50 : df.rowCount < 2 * nullCountOf df col <;>
  by_cases h10 : df.rowCount < 10 * nullCountOf df col <;>
  simp [e50, e10, h50, h10]


/-- C4 witness: at exactly 50 percent nulls the step emits a warning,
not an error, and records count 1 with percentage 50. -/
theorem C4_null_threshold_policy_witness :
    ("value" ∈ dfC4.colNames ∧ 0 < nullCountOf dfC4 "value") ∧
    nullStep dfC4 (freshResult, []) "value" =
      (freshResult.add_warning (nullMsg "value" 1 50), [("value", 1, 50)]) := by
  refine ⟨⟨by decide, by decide⟩, ?_⟩
  rw [C4_null_threshold_policy dfC4 freshResult [] "value" (by decide) (by decide)]
  have hn : nullCountOf dfC4 "value" = 1 := rfl
  have hr : dfC4.rowCount = 2 := rfl
  simp only [hn, hr]
  norm_num

/-! ## Claim C5: year bounds of the temporal analysis -/

/-- C5: whenever at least one date parses, the temporal block of
validate_data_quality places the early-year finding (earliest parsed
year strictly below MIN_YEAR) among the warnings and the late-year
finding (latest parsed year strictly above MAX_YEAR) among the errors;
the two conditions are independent, so both findings can occur for one
table. -/
theorem C5_year_bounds (st : SchemaType) (df : DataFrame) (now : Timestamp)
    (r : ValidationResult) (d : Timestamp) (rest : List Timestamp)
    (h : dsValidDates st df = d :: rest) :
    (dateSection st df now r).warnings =
      r.warnings ++
        (if (tsListMin d rest).year < MIN_YEAR then [lowYearMsg (tsListMin d rest).year]
         else []) ++ dsFutWarn st df now ∧
    (dateSection st df now r).errors =
      r.errors ++ dsInvErr st df ++
        (if MAX_YEAR < (tsListMax d rest).year then [highYearMsg (tsListMax d rest).year]
         else []) := by
  rw [dateSection_eq]
  constructor
  · show r.warnings ++ dsWarnings st df now = _
    unfold dsWarnings dsLowWarn
    rw [h]
    simp [List.append_assoc]
  · show r.errors ++ dsErrors st df = _
    unfold dsErrors dsYearErr
    rw [h]
    simp [List.append_assoc]


/-- C5 witness: on a table containing the years 1899 and 2101, the early
year yields exactly a warning and the late year exactly an error, both
at once. -/
theorem C5_year_bounds_witness :
    dsValidDates SchemaType.NORMALIZED dfC5 = ⟨1899, 0⟩ :: [⟨2101, 0⟩] ∧
    (dateSection SchemaType.NORMALIZED dfC5 ⟨2200, 0⟩ freshResult).warnings =
      [lowYearMsg 1899] ∧
    (dateSection SchemaType.NORMALIZED dfC5 ⟨2200, 0⟩ freshResult).errors =
      [highYearMsg 2101] := by
  have h : dsValidDates SchemaType.NORMALIZED dfC5 = ⟨1899, 0⟩ :: [⟨2101, 0⟩] := by
    decide
  obtain ⟨hw, he⟩ := C5_year_bounds SchemaType.NORMALIZED dfC5 ⟨2200, 0⟩ freshResult
    ⟨1899, 0⟩ [⟨2101, 0⟩] h
  refine ⟨h, ?_, ?_⟩
  · rw [hw]; decide
  · rw [he]; decide

/-! ## Claim C6: invalid-date counting -/

lemma countP_coerce_split (l : List Cell) :
    l.countP (fun c => (coerceDate c).isNone) =
      l.countP Cell.isNull +
        l.countP (fun c => !c.isNull && (coerceDate c).isNone) := by
  induction l with
  | nil => rfl
  | cons c t ih =>
      rw [List.countP_cons, List.countP_cons, List.countP_cons, ih]
      cases c <;> simp [coerceDate, Cell.isNull] <;> omega

/-- C6: the invalid-date count of the temporal block equals the number
of post-coercion nulls minus the number of pre-existing nulls, which is
exactly the number of non-null entries that fail to parse — entries that
were already null before coercion never contribute — and the
unparseable-datetime error is emitted exactly when this count is
positive. -/
theorem C6_invalid_dates (st : SchemaType) (df : DataFrame) (now : Timestamp)
    (r : ValidationResult) :
    dsInvalidCount st df =
      ((df.col (dateCol st)).map coerceDate).countP (fun d => d.isNone) -
        (df.col (dateCol st)).countP Cell.isNull ∧
    dsInvalidCount st df =
      (df.col (dateCol st)).countP (fun c => !c.isNull && (coerceDate c).isNone) ∧
    (dateSection st df now r).errors =
      r.errors ++
        (if 0 < dsInvalidCount st df then [invalidDatesMsg (dsInvalidCount st df)]
         else []) ++ dsYearErr st df := by
  refine ⟨rfl, ?_, ?_⟩
  · unfold dsInvalidCount coercedDates
    have hm : ((df.col (dateCol st)).map coerceDate).countP (fun d => d.isNone) =
        (df.col (dateCol st)).countP (fun c => (coerceDate c).isNone) := by
      rw [List.countP_map]; rfl
    rw [hm, countP_coerce_split]
    omega
  · rw [dateSection_eq]
    show r.errors ++ dsErrors st df = _
    unfold dsErrors dsInvErr
    simp [List.append_assoc]

/-! ## Claim C7: duplicate detection -/

lemma dupFlags_count (seen keys : List (List Cell)) :
    (dupFlags seen keys).count true =
      (List.range keys.length).countP
        (fun i => decide (keys.getD i [] ∈ seen ++ keys.take i)) := by
  induction keys generalizing seen with
  | nil => rfl
  | cons k rest ih =>
      rw [dupFlags, List.count_cons, List.length_cons, List.range_succ_eq_map,
        List.countP_cons, List.countP_map, ih (k :: seen)]
      congr 1
      · apply List.countP_congr
        intro i hi
        simp only [Function.comp, decide_eq_true_eq, Nat.succ_eq_add_one,
          List.getD_cons_succ, List.take_succ_cons, List.mem_append, List.mem_cons]
        tauto
      · simp

/-- The pandas duplicated-with-keep-first count agrees with the
all-but-first-occurrence count of the claim. -/
lemma pandasDup_eq_earlier (keys : List (List Cell)) :
    pandasDupCount keys = earlierDupCount keys := by
  unfold pandasDupCount earlierDupCount
  rw [dupFlags_count [] keys]
  apply List.countP_congr
  intro i hi
  simp

/-- C7: when all three identity-key columns are present, the duplicate
count is the number of rows whose key tuple already occurred in an
earlier row (so a pair of identical-key rows counts once); a positive
count yields exactly one warning plus the duplicate_count info entry,
and the block never touches the error sequence. -/
theorem C7_duplicates (st : SchemaType) (df : DataFrame) (r : ValidationResult)
    (h : (idCols st).all (fun c => decide (c ∈ df.colNames)) = true) :
    pandasDupCount (keyRows st df) = earlierDupCount (keyRows st df) ∧
    dupSection st df r =
      (if 0 < pandasDupCount (keyRows st df) then
        (r.add_warning (dupMsg (pandasDupCount (keyRows st df)))).add_info
          "duplicate_count" (InfoVal.nat (pandasDupCount (keyRows st df)))
       else r) ∧
    (dupSection st df r).errors = r.errors := by
  have h2 : dupSection st df r =
      (if 0 < pandasDupCount (keyRows st df) then
        (r.add_warning (dupMsg (pandasDupCount (keyRows st df)))).add_info
          "duplicate_count" (InfoVal.nat (pandasDupCount (keyRows st df)))
       else r) := by
    unfold dupSection
    dsimp only
    rw [if_pos h]
  refine ⟨pandasDup_eq_earlier _, h2, ?_⟩
  rw [h2]
  by_cases hd : 0 < pandasDupCount (keyRows st df) <;>
  simp [hd, ValidationResult.add_warning, ValidationResult.add_info]


/-- C7 witness: the identical-key pair counts as one duplicate and
produces the warning and the info entry. -/
theorem C7_duplicates_witness :
    ((idCols SchemaType.NORMALIZED).all
      (fun c => decide (c ∈ dfC7.colNames)) = true) ∧
    pandasDupCount (keyRows SchemaType.NORMALIZED dfC7) = 1 ∧
    (dupSection SchemaType.NORMALIZED dfC7 freshResult).warnings = [dupMsg 1] ∧
    (dupSection SchemaType.NORMALIZED dfC7 freshResult).errors = [] := by
  obtain ⟨h1, h2, h3⟩ := C7_duplicates SchemaType.NORMALIZED dfC7 freshResult
    (by decide)
  refine ⟨by decide, by decide, ?_, h3.trans rfl⟩
  rw [h2]
  decide

/-! ## Claim C8: the empty-table short circuit of the schema pass -/

/-- C8: on every zero-row table, regardless of declared columns, the
schema pass returns immediately with exactly the one empty-table error,
an invalid result, no warnings and an empty info map, so none of the
missing-column, unexpected-column or dtype checks contribute anything. -/
theorem C8_empty_table_schema (st : SchemaType) (df : DataFrame)
    (h : df.rows = []) :
    validate_schema st df =
      ⟨false, ["DataFrame is empty (0 rows)"], [], []⟩ := by
  unfold validate_schema
  dsimp only
  rw [if_pos (by simp [DataFrame.isEmptyDF, h])]
  rfl


/-- C8 witness: the empty-table result on a concrete zero-row table with
all required columns declared. -/
theorem C8_empty_table_schema_witness :
    dfEmpty.rows = [] ∧
    validate_schema SchemaType.NORMALIZED dfEmpty =
      ⟨false, ["DataFrame is empty (0 rows)"], [], []⟩ :=
  ⟨rfl, C8_empty_table_schema SchemaType.NORMALIZED dfEmpty rfl⟩

/-! ## Claim C10: the empty-table behaviour of the other two passes -/

/-- C10: on every zero-row table the quality pass returns an invalid
result with exactly its own empty-table error and nothing else, while
the business-rules pass returns a valid result with no errors, no
warnings and an empty info map — the zero-row short circuit exists in
both non-schema passes but with different outcomes. -/
theorem C10_empty_table_other_passes (st : SchemaType) (df : DataFrame)
    (now : Timestamp) (h : df.rows = []) :
    validate_data_quality st df now =
      ⟨false, ["Cannot validate quality of empty DataFrame"], [], []⟩ ∧
    validate_business_rules st df = ⟨true, [], [], []⟩ := by
  constructor
  · unfold validate_data_quality
    dsimp only
    rw [if_pos (by simp [DataFrame.isEmptyDF, h])]
    rfl
  · unfold validate_business_rules
    dsimp only
    rw [if_pos (by simp [DataFrame.isEmptyDF, h])]
    rfl

/-- C10 witness: both empty-table results on a concrete zero-row table. -/
theorem C10_empty_table_other_passes_witness :
    dfEmpty.rows = [] ∧
    validate_data_quality SchemaType.RAW dfEmpty ⟨2025, 0⟩ =
      ⟨false, ["Cannot validate quality of empty DataFrame"], [], []⟩ ∧
    validate_business_rules SchemaType.RAW dfEmpty = ⟨true, [], [], []⟩ :=
  ⟨rfl, (C10_empty_table_other_passes SchemaType.RAW dfEmpty ⟨2025, 0⟩ rfl).1,
    (C10_empty_table_other_passes SchemaType.RAW dfEmpty ⟨2025, 0⟩ rfl).2⟩

/-! ## Claim C9: determinism across invocations -/

/-- Errors, info and hence validity of the quality pass do not depend on
the clock reading; only the future-timestamp warning does. -/
lemma quality_now_invariant (st : SchemaType) (df : DataFrame)
    (now1 now2 : Timestamp) :
    (validate_data_quality st df now1).errors =
      (validate_data_quality st df now2).errors ∧
    (validate_data_quality st df now1).info =
      (validate_data_quality st df now2).info := by
  unfold validate_data_quality
  dsimp only
  by_cases he : df.isEmptyDF
  · simp [he]
  · by_cases hd : dateCol st ∈ df.colNames <;>
    simp [he, hd, dateSection_eq]

/-- C9 amended: for a fixed table and schema variant, the error
sequence, overall validity and info map of validate_all are identical
across invocations whatever the clock reads; only the future-timestamp
warning of the quality pass depends on the invocation time, so results
of two invocations agree whenever the clock reading is the same. -/
theorem C9_determinism_amended (st : SchemaType) (df : DataFrame)
    (now1 now2 : Timestamp) :
    (validate_all st df now1).errors = (validate_all st df now2).errors ∧
    (validate_all st df now1).is_valid = (validate_all st df now2).is_valid ∧
    (validate_all st df now1).info = (validate_all st df now2).info := by
  obtain ⟨he, hi⟩ := quality_now_invariant st df now1 now2
  unfold validate_all
  dsimp only
  rw [he, hi]
  exact ⟨rfl, rfl, rfl⟩


/-- C9 counterexample: the same table and variant validated at two
different moments yield different ValidationResults (the invocation
before the stored timestamp reports a future-timestamp warning, the one
after does not), refuting the claim that any two invocations on a fixed
table produce identical results. -/
theorem C9_determinism_counterexample :
    validate_all SchemaType.NORMALIZED dfC9 ⟨2020, 3⟩ ≠
      validate_all SchemaType.NORMALIZED dfC9 ⟨2020, 9⟩ := by
  decide

end WaterIntel
